import Mathlib

/-!
Shallow embedding of `src/stocks_sync.py` (WB stocks → Supabase sync pipeline)
and proofs about its specification claims.

The embedding models each function of the source as a pure Lean function:
effects (HTTP responses, the wall clock) become explicit parameters, and
exceptions become sum-type results.
-/

namespace StocksSync

/-! ## Configuration constants (module-level constants in the source) -/

def REPORT_LOCALE : String := "ru"

def POLL_TIMEOUT_SEC : Nat := 180

def POLL_INTERVAL_SEC : Nat := 2

/-- The `REPORT_PARAMS_BOOL` dict from the source, as an ordered association list. -/
def REPORT_PARAMS_BOOL : List (String × Bool) :=
  [("groupByBrand", false), ("groupBySubject", false), ("groupBySa", true),
   ("groupByNm", true), ("groupByBarcode", true), ("groupBySize", true)]

/-! ## Data model

JSON records arriving from the report are modelled structurally: every field
the source reads via `.get` is an `Option`, mirroring a possibly-absent key. -/

/-- One element of an item's `warehouses` list in the downloaded report. -/
structure WarehouseEntry where
  warehouseId : Option Int
  warehouseName : Option String
  quantity : Option Int
  inWayToClient : Option Int
  inWayFromClient : Option Int
  quantityFull : Option Int
  deriving Repr, DecidableEq

/-- One item record of the downloaded report (`row` in `flatten_rows`). -/
structure ReportItem where
  brand : Option String
  subjectName : Option String
  vendorCode : Option String
  nmId : Option Int
  barcode : Option String
  techSize : Option String
  volume : Option Int
  warehouses : Option (List WarehouseEntry)
  deriving Repr, DecidableEq

/-- The flat dict appended to `flat` by `flatten_rows`, one per persisted row. -/
structure FlatRow where
  nm_id : Option Int
  supplier_article : Option String
  barcode : Option String
  tech_size : Option String
  brand : Option String
  subject_name : Option String
  volume_l : Option Int
  warehouse_id : Option Int
  warehouse_name : String
  quantity : Int
  in_way_to_client : Int
  in_way_from_client : Int
  quantity_full : Int
  source : String
  locale : String
  updated_utc : String
  deriving Repr, DecidableEq

/-! ## Flatten transform (`flatten_rows`)

The source computes `now_utc` once per call from the wall clock
(`time.strftime(..., time.gmtime())`); the embedding takes that captured
timestamp as the explicit parameter `nowUtc`. -/

/-- Python `int(w.get("quantity") or 0)` — an absent (or falsy) value becomes `0`. -/
def entryQuantity (w : WarehouseEntry) : Int := w.quantity.getD 0

/-- Python `int(w.get("inWayToClient") or 0)`. -/
def entryInWayTo (w : WarehouseEntry) : Int := w.inWayToClient.getD 0

/-- Python `int(w.get("inWayFromClient") or 0)`. -/
def entryInWayFrom (w : WarehouseEntry) : Int := w.inWayFromClient.getD 0

/-- Source `q_full`: the vendor-supplied `quantityFull` if present, else derived as
`quantity + inWayToClient + inWayFromClient`. -/
def entryQFull (w : WarehouseEntry) : Int :=
  w.quantityFull.getD (entryQuantity w + entryInWayTo w + entryInWayFrom w)

/-- Python `str.strip()`: remove leading and trailing whitespace characters.
(Defined on the underlying character list so that it evaluates by kernel
reduction; `String.trim` of the standard library is the same operation but is
implemented with well-founded recursion.) -/
def pyStrip (s : String) : String :=
  String.mk (((s.data.dropWhile Char.isWhitespace).reverse.dropWhile Char.isWhitespace).reverse)

/-- Python `str.startswith(pre)`. -/
def pyStartsWith (s pre : String) : Bool :=
  pre.data.isPrefixOf s.data

/-- Python `(w.get("warehouseName") or "").strip()` — absent name becomes `""`,
then leading/trailing whitespace is stripped. -/
def entryName (w : WarehouseEntry) : String := pyStrip (w.warehouseName.getD "")

/-- The in-transit sentinel test: `warehouse_name.startswith("В пути")`. -/
def isInTransit (w : WarehouseEntry) : Bool := pyStartsWith (entryName w) "В пути"

/-- The four per-item accumulators
(`qty_sum`, `in_way_to_sum`, `in_way_from_sum`, `qty_full_sum`). -/
structure Sums where
  qty : Int
  inWayTo : Int
  inWayFrom : Int
  qtyFull : Int
  deriving Repr, DecidableEq

/-- One pass of the accumulation in the warehouse loop: an entry whose stripped
name starts with `"В пути"` leaves all four sums untouched. -/
def stepSums (s : Sums) (w : WarehouseEntry) : Sums :=
  if isInTransit w then s
  else
    { qty := s.qty + entryQuantity w
      inWayTo := s.inWayTo + entryInWayTo w
      inWayFrom := s.inWayFrom + entryInWayFrom w
      qtyFull := s.qtyFull + entryQFull w }

/-- The sums after the whole warehouse loop of one item. -/
def itemSums (ws : List WarehouseEntry) : Sums := ws.foldl stepSums ⟨0, 0, 0, 0⟩

/-- The dict appended to `flat` for one warehouse entry of one item. -/
def whRow (nowUtc : String) (row : ReportItem) (w : WarehouseEntry) : FlatRow :=
  { nm_id := row.nmId
    supplier_article := row.vendorCode
    barcode := row.barcode
    tech_size := row.techSize
    brand := row.brand
    subject_name := row.subjectName
    volume_l := row.volume
    warehouse_id := w.warehouseId
    warehouse_name := entryName w
    quantity := entryQuantity w
    in_way_to_client := entryInWayTo w
    in_way_from_client := entryInWayFrom w
    quantity_full := entryQFull w
    source := "seller_analytics_warehouse_remains"
    locale := REPORT_LOCALE
    updated_utc := nowUtc }

/-- The synthetic aggregate dict appended after the warehouse loop
(`"Всего находится на складах"`).  `quantity_full` is
`qty_full_sum if qty_full_sum else (qty_sum + in_way_to_sum + in_way_from_sum)`:
a falsy (zero) `qty_full_sum` is replaced by the naive sum. -/
def aggRow (nowUtc : String) (row : ReportItem) (s : Sums) : FlatRow :=
  { nm_id := row.nmId
    supplier_article := row.vendorCode
    barcode := row.barcode
    tech_size := row.techSize
    brand := row.brand
    subject_name := row.subjectName
    volume_l := row.volume
    warehouse_id := none
    warehouse_name := "Всего находится на складах"
    quantity := s.qty
    in_way_to_client := s.inWayTo
    in_way_from_client := s.inWayFrom
    quantity_full := if s.qtyFull = 0 then s.qty + s.inWayTo + s.inWayFrom else s.qtyFull
    source := "seller_analytics_warehouse_remains"
    locale := REPORT_LOCALE
    updated_utc := nowUtc }

/-- The warehouse loop of one item: left fold carrying the accumulated sums and
the rows appended so far, exactly as the Python `for w in warehouses` loop does. -/
def whLoop (nowUtc : String) (row : ReportItem) (acc : Sums × List FlatRow)
    (ws : List WarehouseEntry) : Sums × List FlatRow :=
  ws.foldl (fun a w => (stepSums a.1 w, a.2 ++ [whRow nowUtc row w])) acc

/-- Processing of one item record of `flatten_rows`: run the warehouse loop
(over `row.get("warehouses") or []`) then append the synthetic aggregate row. -/
def flattenItem (nowUtc : String) (row : ReportItem) : List FlatRow :=
  let ws := row.warehouses.getD []
  let r := whLoop nowUtc row (⟨0, 0, 0, 0⟩, []) ws
  r.2 ++ [aggRow nowUtc row r.1]

/-- Function `flatten_rows`: the outer `for row in report_rows` loop appending into one
shared `flat` list. -/
def flatten_rows (nowUtc : String) (rows : List ReportItem) : List FlatRow :=
  rows.foldl (fun flat row => flat ++ flattenItem nowUtc row) []

/-! ## HTTP wrapper (`http_request`)

One element of the event list describes what the underlying
`requests.request` call does on one attempt: deliver a response with a given
status code, or raise a transport-level exception (`ConnectionError`,
`Timeout`, …, which are *not* `requests.HTTPError`).  The list's length is
the `retries` argument: one potential event per loop iteration. -/

inductive HttpEvent where
  | response (status : Nat)
  | transportExc
  deriving Repr, DecidableEq

inductive HttpOutcome where
  /-- the wrapper returned the response (`status_code < 400`) -/
  | success (status : Nat)
  /-- Outcome `raise last_exc`: an `HTTPError` re-raised after the loop -/
  | httpError (status : Nat)
  /-- a transport-level exception propagated uncaught out of the wrapper -/
  | transportRaised
  /-- Outcome `RuntimeError("http_request failed without exception?")` (retries = 0) -/
  | internalError
  deriving Repr, DecidableEq

/-- Observable result of one `http_request` call: its outcome, how many
attempts (underlying requests) were made, and how many backoff sleeps
(`time.sleep(1.5)`) were performed. -/
structure HttpTrace where
  outcome : HttpOutcome
  attempts : Nat
  sleeps : Nat
  deriving Repr, DecidableEq

/-- Function `http_request` as a function of the per-attempt events.
`resp.raise_for_status()` raises `HTTPError` for every status ≥ 400 and the
`except requests.HTTPError` arm catches exactly that, sleeping only when a
further attempt remains; transport exceptions are not caught. -/
def http_request : List HttpEvent → HttpTrace
  | [] => ⟨.internalError, 0, 0⟩
  | .transportExc :: _ => ⟨.transportRaised, 1, 0⟩
  | .response s :: rest =>
    if s < 400 then ⟨.success s, 1, 0⟩
    else
      match rest with
      | [] => ⟨.httpError s, 1, 0⟩
      | r :: rs =>
        let t := http_request (r :: rs)
        ⟨t.outcome, t.attempts + 1, t.sleeps + 1⟩

/-! ## Report task creation (`create_report_task`) -/

/-- A value of the mixed parameter dict passed to `_encode_bool_params`. -/
inductive ParamVal where
  | str (s : String)
  | boolean (b : Bool)
  deriving Repr, DecidableEq

/-- Helper `_encode_bool_params`: booleans become the lowercase strings
`"true"`/`"false"`, everything else passes through. -/
def encode_bool_params (ps : List (String × ParamVal)) : List (String × String) :=
  ps.map fun p =>
    (p.1, match p.2 with
          | .boolean b => if b then "true" else "false"
          | .str s => s)

/-- The JSON body of a task-creation request. -/
inductive ReqBody where
  /-- Body `json_body={}` (strategy 1) -/
  | emptyObj
  /-- Body `{"locale": …, groupBy flags at top level}` (strategy 2) -/
  | flatBody (locale : String) (flags : List (String × Bool))
  /-- Body `{"locale": …, "groupBy": {…}}` (strategy 3) -/
  | nestedBody (locale : String) (groupBy : List (String × Bool))
  deriving Repr, DecidableEq

/-- The request one strategy issues: query-string parameters plus JSON body
(method, URL and headers are identical across the three strategies). -/
structure CreateRequest where
  queryParams : List (String × String)
  body : ReqBody
  deriving Repr, DecidableEq

/-- Strategy 1: encoded query parameters (`locale` + the six flags) and an
empty JSON body. -/
def strategy1Request : CreateRequest :=
  { queryParams := encode_bool_params
      (("locale", .str REPORT_LOCALE) :: REPORT_PARAMS_BOOL.map fun p => (p.1, .boolean p.2))
    body := .emptyObj }

/-- Strategy 2: no query string, flags at the top level of the JSON body. -/
def strategy2Request : CreateRequest :=
  { queryParams := []
    body := .flatBody REPORT_LOCALE REPORT_PARAMS_BOOL }

/-- Lookup `REPORT_PARAMS_BOOL[k]` (the key is always present in the source dict). -/
def lookupFlag (k : String) : Bool := (REPORT_PARAMS_BOOL.lookup k).getD false

/-- Strategy 3: no query string, flags projected into a nested `groupBy`
object. -/
def strategy3Request : CreateRequest :=
  { queryParams := []
    body := .nestedBody REPORT_LOCALE
      [("brand", lookupFlag "groupByBrand"), ("subject", lookupFlag "groupBySubject"),
       ("sa", lookupFlag "groupBySa"), ("nm", lookupFlag "groupByNm"),
       ("barcode", lookupFlag "groupByBarcode"), ("size", lookupFlag "groupBySize")] }

/-- What one strategy's `try` block observes: an exception anywhere inside
(HTTP failure from `http_request`, or a JSON decode error), or a parsed
response whose `data.taskId` field is the given optional string. -/
inductive AttemptResult where
  | exc
  | ok (taskId : Option String)
  deriving Repr, DecidableEq

/-- The task id a strategy yields, after the `if tid:` truthiness test:
`none` when the attempt raised, the field was absent, or the id was empty. -/
def taskIdOf : AttemptResult → Option String
  | .exc => none
  | .ok none => none
  | .ok (some t) => if t = "" then none else some t

inductive CreateOutcome where
  | created (taskId : String)
  /-- Outcome `RuntimeError("Failed to create report task via all strategies …")` -/
  | allFailed
  deriving Repr, DecidableEq

/-- Function `create_report_task`, parameterized by the remote service (a map from the
request a strategy issues to what its `try` block observes).  Returns the
outcome together with the list of requests actually issued, in order. -/
def create_report_task (svc : CreateRequest → AttemptResult) :
    CreateOutcome × List CreateRequest :=
  match taskIdOf (svc strategy1Request) with
  | some t => (.created t, [strategy1Request])
  | none =>
    match taskIdOf (svc strategy2Request) with
    | some t => (.created t, [strategy1Request, strategy2Request])
    | none =>
      match taskIdOf (svc strategy3Request) with
      | some t => (.created t, [strategy1Request, strategy2Request, strategy3Request])
      | none => (.allFailed, [strategy1Request, strategy2Request, strategy3Request])

/-! ## Status poller (`wait_report_ready`)

One loop iteration reads `data.get("data", {}).get("status")` (an optional
string) and the elapsed wall-clock seconds `time.time() - started`; the body
then decides among returning, raising, or sleeping and polling again. -/

inductive PollStepResult where
  | done
  /-- Outcome `RuntimeError(f"WB report task failed: …")` -/
  | failed
  /-- Outcome `TimeoutError("Timed out waiting for report to be ready")` -/
  | timedOut
  | keepPolling
  deriving Repr, DecidableEq

/-- One iteration of the polling loop body, in the source's test order:
`done` first, then the failure statuses, then the timeout check, else sleep
and poll again. -/
def poll_step (status : Option String) (elapsed : Nat) : PollStepResult :=
  if status = some "done" then .done
  else if status = some "fail" ∨ status = some "failed" ∨ status = some "error" then .failed
  else if POLL_TIMEOUT_SEC < elapsed then .timedOut
  else .keepPolling

/-- The whole polling loop over a finite trace of observations
(status read, elapsed seconds at that iteration); `none` means the trace ran
out while the loop would still be polling. -/
def wait_report_ready : List (Option String × Nat) → Option PollStepResult
  | [] => none
  | (st, el) :: rest =>
    match poll_step st el with
    | .keepPolling => wait_report_ready rest
    | r => some r

/-! ## Reconciling upsert (`upsert_batches`) -/

/-- The chunking loop `for i in range(0, total, batch_size): rows[i:i+batch_size]`,
entered only with a nonempty row list.  The `0, _ :: _` arm is unreachable
from `upsert_batches` (Python's `range` raises before iterating on step 0). -/
def chunkLoop : Nat → List α → List (List α)
  | _, [] => []
  | 0, _ :: _ => []
  | n + 1, r :: rs =>
    ((r :: rs).take (n + 1)) :: chunkLoop (n + 1) ((r :: rs).drop (n + 1))
termination_by _ l => l.length
decreasing_by simp [List.length_drop]; omega

/-- Result of `upsert_batches`: the sequence of per-call batches handed to the
store, or the `ValueError` Python's `range` raises on a zero step. -/
inductive UpsertResult (α : Type) where
  | applied (batches : List (List α))
  | rangeError
  deriving Repr, DecidableEq

/-- Function `upsert_batches`: empty input returns before the loop ("Nothing to
upsert."); otherwise the rows are sliced into consecutive `batch_size`-sized
chunks, one store upsert call per chunk. -/
def upsert_batches (batchSize : Nat) (rows : List α) : UpsertResult α :=
  match rows with
  | [] => .applied []
  | r :: rs =>
    if batchSize = 0 then .rangeError
    else .applied (chunkLoop batchSize (r :: rs))

/-! ## Structural lemmas about the flatten transform -/

theorem whLoop_eq (nowUtc : String) (row : ReportItem) (ws : List WarehouseEntry)
    (s : Sums) (l : List FlatRow) :
    whLoop nowUtc row (s, l) ws = (ws.foldl stepSums s, l ++ ws.map (whRow nowUtc row)) := by
  induction ws generalizing s l with
  | nil => simp [whLoop]
  | cons w ws ih =>
    simp only [whLoop, List.foldl_cons] at ih ⊢
    rw [ih]
    simp

theorem flattenItem_eq (nowUtc : String) (row : ReportItem) :
    flattenItem nowUtc row =
      ((row.warehouses.getD []).map (whRow nowUtc row))
        ++ [aggRow nowUtc row (itemSums (row.warehouses.getD []))] := by
  simp [flattenItem, whLoop_eq, itemSums]

theorem foldl_append_flatten {α β : Type} (f : β → List α) (rows : List β) (l : List α) :
    rows.foldl (fun acc r => acc ++ f r) l = l ++ (rows.map f).flatten := by
  induction rows generalizing l with
  | nil => simp
  | cons r rs ih => simp [List.foldl_cons, ih]

theorem flatten_rows_eq (nowUtc : String) (rows : List ReportItem) :
    flatten_rows nowUtc rows = (rows.map (flattenItem nowUtc)).flatten := by
  simp [flatten_rows, foldl_append_flatten]

theorem stepSums_inTransit (s : Sums) (w : WarehouseEntry) (h : isInTransit w = true) :
    stepSums s w = s := by
  simp [stepSums, h]

theorem foldl_stepSums_filter (ws : List WarehouseEntry) (s : Sums) :
    ws.foldl stepSums s = (ws.filter fun w => !isInTransit w).foldl stepSums s := by
  induction ws generalizing s with
  | nil => rfl
  | cons w ws ih =>
    cases h : isInTransit w with
    | true => simp [List.foldl_cons, List.filter_cons, h, stepSums_inTransit _ _ h, ih]
    | false => simp [List.foldl_cons, List.filter_cons, h, ih]

theorem itemSums_filter (ws : List WarehouseEntry) :
    itemSums ws = itemSums (ws.filter fun w => !isInTransit w) := by
  simp [itemSums, foldl_stepSums_filter]

theorem whRow_mem_flattenItem (nowUtc : String) (row : ReportItem) (w : WarehouseEntry)
    (hw : w ∈ row.warehouses.getD []) :
    whRow nowUtc row w ∈ flattenItem nowUtc row := by
  rw [flattenItem_eq]
  exact List.mem_append_left _ (List.mem_map_of_mem _ hw)

theorem whRow_mem_flatten_rows (nowUtc : String) (rows : List ReportItem)
    (row : ReportItem) (hrow : row ∈ rows) (w : WarehouseEntry)
    (hw : w ∈ row.warehouses.getD []) :
    whRow nowUtc row w ∈ flatten_rows nowUtc rows := by
  rw [flatten_rows_eq]
  exact List.mem_flatten.mpr
    ⟨flattenItem nowUtc row, List.mem_map_of_mem _ hrow, whRow_mem_flattenItem _ _ _ hw⟩

theorem flattenItem_length (nowUtc : String) (row : ReportItem) :
    (flattenItem nowUtc row).length = (row.warehouses.getD []).length + 1 := by
  simp [flattenItem_eq]

theorem sum_map_add_one {β : Type} (g : β → Nat) (rows : List β) :
    (rows.map fun r => g r + 1).sum = (rows.map g).sum + rows.length := by
  induction rows with
  | nil => simp
  | cons r rs ih => simp [ih]; omega

theorem flatten_rows_length (nowUtc : String) (rows : List ReportItem) :
    (flatten_rows nowUtc rows).length =
      (rows.map fun r => (r.warehouses.getD []).length).sum + rows.length := by
  rw [flatten_rows_eq, List.length_flatten, List.map_map]
  have hcomp : (List.length ∘ flattenItem nowUtc)
      = fun r : ReportItem => (r.warehouses.getD []).length + 1 := by
    funext r
    simp [flattenItem_length]
  rw [hcomp, sum_map_add_one]

/-! ## Structural lemmas about the upsert chunking loop -/

theorem chunkLoop_nil (m : Nat) : chunkLoop m ([] : List α) = [] := by
  simp [chunkLoop]

theorem chunkLoop_cons (n : Nat) (r : α) (rs : List α) :
    chunkLoop (n + 1) (r :: rs) =
      ((r :: rs).take (n + 1)) :: chunkLoop (n + 1) ((r :: rs).drop (n + 1)) := by
  simp [chunkLoop]

theorem chunkLoop_ne_nil (n : Nat) (r : α) (rs : List α) :
    chunkLoop (n + 1) (r :: rs) ≠ [] := by
  rw [chunkLoop_cons]
  simp

theorem chunkLoop_join (m : Nat) (rows : List α) :
    m ≠ 0 → (chunkLoop m rows).flatten = rows := by
  induction m, rows using chunkLoop.induct with
  | case1 m => intro _; simp [chunkLoop_nil]
  | case2 r rs => intro h; exact absurd rfl h
  | case3 n r rs ih =>
    intro _
    rw [chunkLoop_cons]
    simp only [List.flatten_cons]
    rw [ih (by omega)]
    exact List.take_append_drop _ _

/-- Arithmetic step of the ceiling-division count of `chunkLoop`. -/
theorem ceil_div_step (L n : Nat) :
    (L + 1 - (n + 1) + (n + 1) - 1) / (n + 1) + 1 = (L + 1 + (n + 1) - 1) / (n + 1) := by
  rw [show L + 1 + (n + 1) - 1 = L + (n + 1) from by omega,
      Nat.add_div_right _ (Nat.succ_pos n)]
  rcases Nat.lt_or_ge L n with hlt | hge
  · rw [show L + 1 - (n + 1) + (n + 1) - 1 = n from by omega,
        Nat.div_eq_of_lt (by omega), Nat.div_eq_of_lt (by omega)]
  · rw [show L + 1 - (n + 1) + (n + 1) - 1 = L from by omega]

theorem chunkLoop_length (m : Nat) (rows : List α) :
    m ≠ 0 → (chunkLoop m rows).length = (rows.length + m - 1) / m := by
  induction m, rows using chunkLoop.induct with
  | case1 m =>
    intro h
    rw [chunkLoop_nil]
    simp only [List.length_nil]
    symm
    apply Nat.div_eq_of_lt
    omega
  | case2 r rs => intro h; exact absurd rfl h
  | case3 n r rs ih =>
    intro _
    rw [chunkLoop_cons]
    simp only [List.length_cons, List.length_drop, Nat.succ_eq_add_one] at ih ⊢
    rw [ih (by omega)]
    exact ceil_div_step rs.length n

theorem chunkLoop_mem_length (m : Nat) (rows : List α) :
    m ≠ 0 → ∀ b ∈ chunkLoop m rows, 0 < b.length ∧ b.length ≤ m := by
  induction m, rows using chunkLoop.induct with
  | case1 m => intro _ b hb; rw [chunkLoop_nil] at hb; cases hb
  | case2 r rs => intro h; exact absurd rfl h
  | case3 n r rs ih =>
    intro _ b hb
    rw [chunkLoop_cons] at hb
    rcases List.mem_cons.mp hb with hb | hb
    · subst hb
      simp only [List.length_take, List.length_cons]
      omega
    · exact ih (by omega) b hb

theorem chunkLoop_dropLast_length (m : Nat) (rows : List α) :
    m ≠ 0 → ∀ b ∈ (chunkLoop m rows).dropLast, b.length = m := by
  induction m, rows using chunkLoop.induct with
  | case1 m => intro _ b hb; rw [chunkLoop_nil] at hb; cases hb
  | case2 r rs => intro h; exact absurd rfl h
  | case3 n r rs ih =>
    intro _ b hb
    rw [chunkLoop_cons] at hb
    rcases hdrop : (r :: rs).drop (n + 1) with _ | ⟨d, ds⟩
    · rw [hdrop, chunkLoop_nil] at hb
      cases hb
    · rw [hdrop] at hb
      rw [List.dropLast_cons_of_ne_nil (chunkLoop_ne_nil n d ds)] at hb
      rcases List.mem_cons.mp hb with hb | hb
      · subst hb
        have hlen : n + 1 < (r :: rs).length := by
          by_contra hc
          have hnil : (r :: rs).drop (n + 1) = [] :=
            List.drop_eq_nil_of_le (by omega)
          rw [hnil] at hdrop
          cases hdrop
        simp only [List.length_take, List.length_cons] at *
        omega
      · rw [hdrop] at ih
        exact ih (by omega) b hb

/-! ## Concrete fixtures -/

/-- An in-transit pseudo-warehouse entry. -/
def wInTransit : WarehouseEntry :=
  { warehouseId := some 1, warehouseName := some "В пути до получателей",
    quantity := some 5, inWayToClient := some 2, inWayFromClient := some 1,
    quantityFull := none }

/-- An ordinary real warehouse entry. -/
def wReal : WarehouseEntry :=
  { warehouseId := some 2, warehouseName := some "Коледино",
    quantity := some 7, inWayToClient := some 0, inWayFromClient := some 0,
    quantityFull := some 7 }

/-- A vendor-supplied rollup entry whose quantity (5) disagrees with the
quantity of the only real warehouse (3). -/
def wRollup : WarehouseEntry :=
  { warehouseId := none, warehouseName := some "Всего находится на складах",
    quantity := some 5, inWayToClient := some 0, inWayFromClient := some 0,
    quantityFull := some 5 }

/-- A real warehouse entry with quantity 3. -/
def wRealA : WarehouseEntry :=
  { warehouseId := some 10, warehouseName := some "Тула",
    quantity := some 3, inWayToClient := some 0, inWayFromClient := some 0,
    quantityFull := some 3 }

/-- An item holding one real warehouse and one in-transit entry. -/
def itemExample : ReportItem :=
  { brand := some "BrandX", subjectName := none, vendorCode := some "ART-1",
    nmId := some 123, barcode := some "4600000000017", techSize := some "M",
    volume := none, warehouses := some [wReal, wInTransit] }

/-- An item holding one real warehouse and a vendor rollup entry. -/
def itemRollup : ReportItem :=
  { brand := none, subjectName := none, vendorCode := none,
    nmId := some 777, barcode := some "4600000000024", techSize := some "L",
    volume := none, warehouses := some [wRealA, wRollup] }

/-- A warehouse entry with no warehouse name. -/
def wNoName : WarehouseEntry :=
  { warehouseId := none, warehouseName := none, quantity := some 4,
    inWayToClient := none, inWayFromClient := none, quantityFull := none }

/-- An item missing item id and barcode whose only entry misses its name. -/
def itemMissing : ReportItem :=
  { brand := none, subjectName := none, vendorCode := none, nmId := none,
    barcode := none, techSize := none, volume := none,
    warehouses := some [wNoName] }

/-- An item whose `warehouses` key is absent. -/
def itemNoWh : ReportItem :=
  { brand := none, subjectName := none, vendorCode := none, nmId := some 9,
    barcode := some "4600000000031", techSize := some "S", volume := none,
    warehouses := none }

/-- A service that rejects strategies 1 and 2 (an HTTP 400 makes
`raise_for_status` raise, landing in the strategy's except-arm) and accepts
strategy 3 with task id `"task-42"`. -/
def svcS3Only : CreateRequest → AttemptResult := fun req =>
  match req.body with
  | .nestedBody _ _ => .ok (some "task-42")
  | _ => .exc

/-! ## Claim theorems -/

/-- C1: task creation attempts the three request encodings in the fixed order
S1 (query string + empty body), S2 (flat body), S3 (nested `groupBy` body);
it returns immediately with the task id of the first attempt yielding a
non-empty task id, issuing no later request, and reports the all-strategies
failure exactly when no attempt yields a task id. -/
theorem create_report_task_fixed_order (svc : CreateRequest → AttemptResult) :
    (∀ t, taskIdOf (svc strategy1Request) = some t →
      create_report_task svc = (.created t, [strategy1Request])) ∧
    (∀ t, taskIdOf (svc strategy1Request) = none →
      taskIdOf (svc strategy2Request) = some t →
      create_report_task svc = (.created t, [strategy1Request, strategy2Request])) ∧
    (∀ t, taskIdOf (svc strategy1Request) = none →
      taskIdOf (svc strategy2Request) = none →
      taskIdOf (svc strategy3Request) = some t →
      create_report_task svc =
        (.created t, [strategy1Request, strategy2Request, strategy3Request])) ∧
    ((create_report_task svc).1 = .allFailed ↔
      taskIdOf (svc strategy1Request) = none ∧
      taskIdOf (svc strategy2Request) = none ∧
      taskIdOf (svc strategy3Request) = none) := by
  unfold create_report_task
  rcases h1 : taskIdOf (svc strategy1Request) with _ | t1 <;>
    rcases h2 : taskIdOf (svc strategy2Request) with _ | t2 <;>
      rcases h3 : taskIdOf (svc strategy3Request) with _ | t3 <;>
        simp [h1, h2, h3]

/-- Witness for C1, at the spec's own example: a service that 400s on
encodings 1 and 2 but accepts encoding 3; the controller returns the id from
encoding 3 without raising, having issued all three requests in order. -/
theorem create_report_task_fixed_order_witness :
    create_report_task svcS3Only =
      (.created "task-42", [strategy1Request, strategy2Request, strategy3Request]) :=
  (create_report_task_fixed_order svcS3Only).2.2.1 "task-42" rfl rfl rfl

/-- C2: a warehouse entry whose stripped name starts with the in-transit
sentinel prefix contributes nothing to the four per-item accumulated sums —
the sums equal the fold over non-in-transit entries only — yet the entry is
still emitted as its own FlatRow in the item's output. -/
theorem inTransit_excluded_from_sums_but_emitted (nowUtc : String)
    (row : ReportItem) (w : WarehouseEntry)
    (hw : w ∈ row.warehouses.getD []) (ht : isInTransit w = true) :
    (∀ s : Sums, stepSums s w = s) ∧
    itemSums (row.warehouses.getD []) =
      itemSums ((row.warehouses.getD []).filter fun v => !isInTransit v) ∧
    whRow nowUtc row w ∈ flattenItem nowUtc row :=
  ⟨fun s => stepSums_inTransit s w ht, itemSums_filter _,
    whRow_mem_flattenItem nowUtc row w hw⟩

/-- Witness for C2 on a concrete item with one real and one in-transit entry. -/
theorem inTransit_excluded_from_sums_but_emitted_witness :
    stepSums ⟨1, 2, 3, 4⟩ wInTransit = ⟨1, 2, 3, 4⟩ ∧
    itemSums (itemExample.warehouses.getD []) =
      itemSums ((itemExample.warehouses.getD []).filter fun v => !isInTransit v) ∧
    whRow "2024-01-01T00:00:00Z" itemExample wInTransit ∈
      flattenItem "2024-01-01T00:00:00Z" itemExample := by
  have h := inTransit_excluded_from_sums_but_emitted "2024-01-01T00:00:00Z"
    itemExample wInTransit (by decide) (by decide)
  exact ⟨h.1 ⟨1, 2, 3, 4⟩, h.2⟩

/-- C6: for batch size N > 0 over M rows, `upsert_batches` issues exactly
⌈M/N⌉ store calls whose batches concatenate back to the rows in original
order (so the per-batch sizes sum to M), every batch is nonempty of size at
most N, all batches except possibly the last have size exactly N, and empty
input yields zero calls and no error. -/
theorem upsert_batches_spec {α : Type} (rows : List α) (N : Nat) (hN : 0 < N) :
    ∃ bs : List (List α),
      upsert_batches N rows = .applied bs ∧
      bs.length = (rows.length + N - 1) / N ∧
      bs.flatten = rows ∧
      (bs.map List.length).sum = rows.length ∧
      (∀ b ∈ bs.dropLast, b.length = N) ∧
      (∀ b ∈ bs, 0 < b.length ∧ b.length ≤ N) ∧
      (rows = [] → bs = []) := by
  have hN0 : N ≠ 0 := by omega
  rcases rows with _ | ⟨r, rs⟩
  · refine ⟨[], rfl, ?_, rfl, rfl, ?_, ?_, fun _ => rfl⟩
    · simp only [List.length_nil]
      symm
      apply Nat.div_eq_of_lt
      omega
    · intro b hb; cases hb
    · intro b hb; cases hb
  · refine ⟨chunkLoop N (r :: rs), ?_, chunkLoop_length N _ hN0, chunkLoop_join N _ hN0,
      ?_, chunkLoop_dropLast_length N _ hN0, chunkLoop_mem_length N _ hN0, by simp⟩
    · simp [upsert_batches, hN0]
    · rw [← List.length_flatten, chunkLoop_join N _ hN0]

/-- Witness for C6: 5 rows at batch size 2 yield 3 calls partitioning the
rows in order. -/
theorem upsert_batches_spec_witness :
    ∃ bs : List (List Nat),
      upsert_batches 2 [10, 20, 30, 40, 50] = .applied bs ∧
      bs.length = 3 ∧ bs.flatten = [10, 20, 30, 40, 50] := by
  obtain ⟨bs, h1, h2, h3, -, -, -, -⟩ :=
    upsert_batches_spec [10, 20, 30, 40, 50] 2 (by decide)
  exact ⟨bs, h1, by rw [h2]; rfl, h3⟩

/-- A warehouse entry whose name carries leading and trailing whitespace. -/
def wPadded : WarehouseEntry :=
  { warehouseId := some 3, warehouseName := some "  В пути до получателей  ",
    quantity := some 1, inWayToClient := some 0, inWayFromClient := some 0,
    quantityFull := none }

/-- C3 counterexample: on an item holding a real warehouse with quantity 3
and a vendor rollup entry with quantity 5, the rollup entry is NOT excluded
from the derived-sum accumulation — the accumulated quantity is 8, not 3 —
and no comparison or warning happens (the transform's output is only the row
list, with the rollup emitted as an ordinary row and the synthetic aggregate
double-counting it). -/
theorem rollup_not_excluded_counterexample :
    isInTransit wRollup = false ∧
    itemSums (itemRollup.warehouses.getD []) ≠ itemSums [wRealA] ∧
    (itemSums (itemRollup.warehouses.getD [])).qty = 8 ∧
    (aggRow "2024-01-01T00:00:00Z" itemRollup
      (itemSums (itemRollup.warehouses.getD []))).quantity = 8 ∧
    whRow "2024-01-01T00:00:00Z" itemRollup wRollup ∈
      flattenItem "2024-01-01T00:00:00Z" itemRollup := by
  decide

/-- C3 amended: the transform has no vendor-rollup handling at all: an entry
whose stripped name does not start with the in-transit prefix — a vendor
rollup entry included — is accumulated into all four sums exactly like a real
warehouse and is emitted as its own FlatRow; no comparison of the rollup
quantity against the derived sum and no mismatch warning exist (no exception
is raised and no data is dropped, but only because nothing is checked). -/
theorem rollup_treated_as_real_warehouse (nowUtc : String) (row : ReportItem)
    (w : WarehouseEntry) (hw : w ∈ row.warehouses.getD [])
    (hr : isInTransit w = false) :
    (∀ s : Sums, stepSums s w =
      { qty := s.qty + entryQuantity w, inWayTo := s.inWayTo + entryInWayTo w,
        inWayFrom := s.inWayFrom + entryInWayFrom w,
        qtyFull := s.qtyFull + entryQFull w }) ∧
    whRow nowUtc row w ∈ flattenItem nowUtc row :=
  ⟨fun s => by simp [stepSums, hr], whRow_mem_flattenItem nowUtc row w hw⟩

/-- Witness for the amended C3 at the concrete rollup item. -/
theorem rollup_treated_as_real_warehouse_witness :
    stepSums ⟨0, 0, 0, 0⟩ wRollup = ⟨5, 0, 0, 5⟩ ∧
    whRow "2024-01-01T00:00:00Z" itemRollup wRollup ∈
      flattenItem "2024-01-01T00:00:00Z" itemRollup := by
  have h := rollup_treated_as_real_warehouse "2024-01-01T00:00:00Z" itemRollup wRollup
    (by decide) (by decide)
  exact ⟨by rw [h.1 ⟨0, 0, 0, 0⟩]; decide, h.2⟩

/-- C4 counterexample: at elapsed 181 s (budget 180 s) with last observed
status "done", the loop body returns success — the timeout is NOT raised
"regardless of the last observed status value", because the terminal statuses
are checked before the timeout. -/
theorem poll_timeout_counterexample :
    POLL_TIMEOUT_SEC < 181 ∧
    poll_step (some "done") 181 = .done ∧
    poll_step (some "done") 181 ≠ .timedOut ∧
    poll_step (some "failed") 181 = .failed := by
  decide

/-- C4 amended: when the last observed status is neither "done" nor one of
the failure statuses ("fail"/"failed"/"error") — in particular for any
unknown or missing status — the poller raises the timeout error iff the
elapsed wall-clock time exceeds the budget, and otherwise keeps polling (the
loop proceeds to the next observation); "done" and the failure statuses are
checked first and take precedence even when the budget is exceeded. -/
theorem poll_timeout_amended (status : Option String) (elapsed : Nat)
    (hd : status ≠ some "done")
    (hf : ¬(status = some "fail" ∨ status = some "failed" ∨ status = some "error")) :
    (POLL_TIMEOUT_SEC < elapsed → poll_step status elapsed = .timedOut) ∧
    (elapsed ≤ POLL_TIMEOUT_SEC → poll_step status elapsed = .keepPolling) ∧
    (∀ rest, elapsed ≤ POLL_TIMEOUT_SEC →
      wait_report_ready ((status, elapsed) :: rest) = wait_report_ready rest) := by
  refine ⟨fun h => ?_, fun h => ?_, fun rest h => ?_⟩
  · simp [poll_step, hd, hf, h]
  · simp [poll_step, hd, hf, Nat.not_lt.mpr h]
  · simp [wait_report_ready, poll_step, hd, hf, Nat.not_lt.mpr h]

/-- Witness for the amended C4: an unknown status "processing" times out at
181 s, keeps polling at 42 s, and the loop then terminates on a later
"done". -/
theorem poll_timeout_amended_witness :
    poll_step (some "processing") 181 = .timedOut ∧
    poll_step (some "processing") 42 = .keepPolling ∧
    wait_report_ready [(some "processing", 42), (some "done", 44)] = some .done := by
  have h181 := poll_timeout_amended (some "processing") 181 (by decide) (by decide)
  have h42 := poll_timeout_amended (some "processing") 42 (by decide) (by decide)
  refine ⟨h181.1 (by decide), h42.2.1 (by decide), ?_⟩
  rw [h42.2.2 [(some "done", 44)] (by decide)]
  decide

/-- C5 counterexample: a row whose item id, barcode and warehouse name are
all missing is still persisted — its warehouse FlatRow (with empty name and
null ids) appears in the output alongside the aggregate row — and nothing is
excluded; no dropped tally exists anywhere in the transform. -/
theorem missing_fields_not_dropped_counterexample :
    (flatten_rows "2024-01-01T00:00:00Z" [itemMissing]).length = 2 ∧
    whRow "2024-01-01T00:00:00Z" itemMissing wNoName ∈
      flatten_rows "2024-01-01T00:00:00Z" [itemMissing] ∧
    (whRow "2024-01-01T00:00:00Z" itemMissing wNoName).nm_id = none ∧
    (whRow "2024-01-01T00:00:00Z" itemMissing wNoName).barcode = none ∧
    (whRow "2024-01-01T00:00:00Z" itemMissing wNoName).warehouse_name = "" := by
  decide

/-- C5 amended: the transform performs no missing-field validation and keeps
no dropped tally: every warehouse entry of every input item — regardless of
missing item id, barcode or warehouse name — is emitted as its own FlatRow
in the persisted output. -/
theorem no_rows_dropped (nowUtc : String) (rows : List ReportItem)
    (row : ReportItem) (hrow : row ∈ rows) (w : WarehouseEntry)
    (hw : w ∈ row.warehouses.getD []) :
    whRow nowUtc row w ∈ flatten_rows nowUtc rows :=
  whRow_mem_flatten_rows nowUtc rows row hrow w hw

/-- Witness for the amended C5 at the all-fields-missing item. -/
theorem no_rows_dropped_witness :
    whRow "2024-01-01T00:00:01Z" itemMissing wNoName ∈
      flatten_rows "2024-01-01T00:00:01Z" [itemMissing] :=
  no_rows_dropped "2024-01-01T00:00:01Z" [itemMissing] itemMissing (by decide)
    wNoName (by decide)

/-- C7 counterexample: `flatten_rows` is not a function of the input sequence
alone — the wall-clock capture is stamped into every emitted row
(`updated_utc`), so two applications to the same input at different times
produce different output sequences. -/
theorem flatten_not_time_invariant_counterexample :
    flatten_rows "2024-01-01T00:00:00Z" [itemExample] ≠
      flatten_rows "2024-01-01T00:00:01Z" [itemExample] := by
  decide

/-- C7 amended: for a fixed captured timestamp the transform is deterministic
and order-stable: the output is the concatenation, in input order, of each
item's block, and each item's block is its warehouse rows in input order
followed by the synthetic aggregate row; two applications with the same
captured timestamp therefore coincide, while applications at different times
differ in every row's `updated_utc` stamp. -/
theorem flatten_deterministic_for_fixed_timestamp (nowUtc : String)
    (rows : List ReportItem) :
    flatten_rows nowUtc rows = (rows.map (flattenItem nowUtc)).flatten ∧
    ∀ row : ReportItem,
      flattenItem nowUtc row =
        ((row.warehouses.getD []).map (whRow nowUtc row))
          ++ [aggRow nowUtc row (itemSums (row.warehouses.getD []))] :=
  ⟨flatten_rows_eq nowUtc rows, fun row => flattenItem_eq nowUtc row⟩

/-- C8 counterexample: with retry budget 2, a non-retryable 400 response IS
retried — a second attempt and a backoff sleep occur (the call then succeeds
on the retry) — while a transport-level exception is NOT retried: it
propagates on the first attempt with no sleep. -/
theorem http_request_retry_counterexample :
    http_request [.response 400, .response 200] =
      { outcome := .success 200, attempts := 2, sleeps := 1 } ∧
    http_request [.transportExc, .response 200] =
      { outcome := .transportRaised, attempts := 1, sleeps := 0 } := by
  decide

/-- C8 amended: the wrapper retries on any response with HTTP status ≥ 400 —
429 and 5xx, but equally every other 4xx — while attempts remain, sleeping
before each further attempt and re-raising the last HTTP error when the
budget is exhausted; a transport-level exception is never caught and
propagates on its first occurrence with no further attempt and no sleep; a
status < 400 returns immediately. -/
theorem http_request_retry_policy (evs : List HttpEvent) (s : Nat) :
    (http_request (.transportExc :: evs) =
      { outcome := .transportRaised, attempts := 1, sleeps := 0 }) ∧
    (s < 400 → http_request (.response s :: evs) =
      { outcome := .success s, attempts := 1, sleeps := 0 }) ∧
    (400 ≤ s → http_request [.response s] =
      { outcome := .httpError s, attempts := 1, sleeps := 0 }) ∧
    (400 ≤ s → evs ≠ [] →
      http_request (.response s :: evs) =
        { outcome := (http_request evs).outcome,
          attempts := (http_request evs).attempts + 1,
          sleeps := (http_request evs).sleeps + 1 }) := by
  refine ⟨rfl, fun h => ?_, fun h => ?_, fun h hne => ?_⟩
  · rcases evs with _ | ⟨e, es⟩ <;> simp [http_request, h]
  · simp [http_request, Nat.not_lt.mpr h]
  · rcases evs with _ | ⟨e, es⟩
    · exact absurd rfl hne
    · simp [http_request, Nat.not_lt.mpr h]

/-- Witness for the amended C8 at concrete statuses 200, 500, and a retried
429 followed by 503. -/
theorem http_request_retry_policy_witness :
    http_request [.transportExc] =
      { outcome := .transportRaised, attempts := 1, sleeps := 0 } ∧
    http_request [.response 200] =
      { outcome := .success 200, attempts := 1, sleeps := 0 } ∧
    http_request [.response 500] =
      { outcome := .httpError 500, attempts := 1, sleeps := 0 } ∧
    http_request [.response 429, .response 503] =
      { outcome := (http_request [.response 503]).outcome,
        attempts := (http_request [.response 503]).attempts + 1,
        sleeps := (http_request [.response 503]).sleeps + 1 } := by
  have h200 := http_request_retry_policy ([] : List HttpEvent) 200
  have h500 := http_request_retry_policy ([] : List HttpEvent) 500
  have h429 := http_request_retry_policy [HttpEvent.response 503] 429
  exact ⟨(http_request_retry_policy ([] : List HttpEvent) 0).1,
    h200.2.1 (by decide), h500.2.2.1 (by decide),
    h429.2.2.2 (by decide) (by decide)⟩

/-- C9: the transform emits exactly one synthetic aggregate row per input
item, unconditionally: each item's block is its warehouse rows followed by
exactly one aggregate row; an item with an empty or absent warehouse list
yields just the aggregate row with all four quantity fields 0; and the output
length is the total number of warehouse entries plus the number of items. -/
theorem one_aggregate_row_per_item (nowUtc : String) (rows : List ReportItem) :
    (flatten_rows nowUtc rows).length =
      (rows.map fun r => (r.warehouses.getD []).length).sum + rows.length ∧
    (∀ row : ReportItem,
      flattenItem nowUtc row =
        ((row.warehouses.getD []).map (whRow nowUtc row))
          ++ [aggRow nowUtc row (itemSums (row.warehouses.getD []))]) ∧
    (∀ row : ReportItem, row.warehouses.getD [] = [] →
      flattenItem nowUtc row = [aggRow nowUtc row ⟨0, 0, 0, 0⟩] ∧
      (aggRow nowUtc row ⟨0, 0, 0, 0⟩).quantity = 0 ∧
      (aggRow nowUtc row ⟨0, 0, 0, 0⟩).in_way_to_client = 0 ∧
      (aggRow nowUtc row ⟨0, 0, 0, 0⟩).in_way_from_client = 0 ∧
      (aggRow nowUtc row ⟨0, 0, 0, 0⟩).quantity_full = 0) := by
  refine ⟨flatten_rows_length nowUtc rows, fun row => flattenItem_eq nowUtc row,
    fun row hrow => ⟨?_, rfl, rfl, rfl, rfl⟩⟩
  rw [flattenItem_eq, hrow]
  simp [itemSums]

/-- Witness for C9 at an item whose `warehouses` key is absent. -/
theorem one_aggregate_row_per_item_witness :
    (flatten_rows "2024-01-01T00:00:00Z" [itemNoWh]).length = 1 ∧
    flattenItem "2024-01-01T00:00:00Z" itemNoWh =
      [aggRow "2024-01-01T00:00:00Z" itemNoWh ⟨0, 0, 0, 0⟩] ∧
    (aggRow "2024-01-01T00:00:00Z" itemNoWh ⟨0, 0, 0, 0⟩).quantity = 0 ∧
    (aggRow "2024-01-01T00:00:00Z" itemNoWh ⟨0, 0, 0, 0⟩).quantity_full = 0 := by
  have h := one_aggregate_row_per_item "2024-01-01T00:00:00Z" [itemNoWh]
  have h3 := h.2.2 itemNoWh rfl
  refine ⟨?_, h3.1, h3.2.1, h3.2.2.2.2⟩
  rw [h.1]
  decide

/-- C10: the warehouse name is stripped of leading and trailing whitespace
(an absent name taken as the empty string) before both uses: the emitted
FlatRow's `warehouse_name` is exactly the stripped raw name — so every
persisted name is whitespace-stripped and an absent name is persisted as ""
— and the in-transit classification is exactly the test that this same
stripped name starts with the literal prefix "В пути", hence it depends only
on the stripped name. -/
theorem warehouse_name_stripped (nowUtc : String) (row : ReportItem)
    (w v : WarehouseEntry) :
    (whRow nowUtc row w).warehouse_name = pyStrip (w.warehouseName.getD "") ∧
    isInTransit w = pyStartsWith (pyStrip (w.warehouseName.getD "")) "В пути" ∧
    (w.warehouseName = none → (whRow nowUtc row w).warehouse_name = "") ∧
    (pyStrip (w.warehouseName.getD "") = pyStrip (v.warehouseName.getD "") →
      isInTransit w = isInTransit v) := by
  refine ⟨rfl, rfl, fun h => ?_, fun h => ?_⟩
  · show entryName w = ""
    simp only [entryName, h]
    decide
  · simp only [isInTransit, entryName, pyStartsWith, h]

/-- Witness for C10: a padded in-transit name is persisted stripped and is
classified identically to its unpadded variant; an absent name is persisted
as the empty string. -/
theorem warehouse_name_stripped_witness :
    (whRow "2024-01-01T00:00:00Z" itemExample wPadded).warehouse_name =
      "В пути до получателей" ∧
    isInTransit wPadded = true ∧
    (whRow "2024-01-01T00:00:00Z" itemExample wNoName).warehouse_name = "" ∧
    isInTransit wPadded = isInTransit wInTransit := by
  have hp := warehouse_name_stripped "2024-01-01T00:00:00Z" itemExample wPadded wInTransit
  have hn := warehouse_name_stripped "2024-01-01T00:00:00Z" itemExample wNoName wNoName
  refine ⟨?_, ?_, hn.2.2.1 rfl, hp.2.2.2 (by decide)⟩
  · rw [hp.1]; decide
  · rw [hp.2.1]; decide

end StocksSync
